import Mathlib

/- Verification development for a minimal React reimplementation
   (src/index.tsx of narutosstudent/react-from-scratch).

   The embedding models:
   - the virtual-DOM node descriptions built by React.createElement /
     createTextElement (VDOMNode),
   - the diff engine (compareNode, walkChildren, walk, diff),
   - the attribute application rule of initialRender,
   - the state-slot store (useState / setState),
   - the live display tree (DomNode) with the patch applier
     (applyChangesToRealDOM) and the render driver (rerender),
   - the end-to-end counter application (App).

   JavaScript values are modeled by the inductive JsVal.  Reference
   equality of objects and functions is modeled by an identity token
   (a Nat) carried by the corresponding constructors: two values built
   with distinct tokens model distinct heap objects.  Strict equality
   (===) on these values is jsEqb below. -/

/-- Model of the JavaScript values that occur as prop values and state
values in the source: undefined, null, booleans, numbers (the program
only uses integers), strings, functions (identified by a reference
token) and plain objects (identified by a reference token, carrying
their string entries, used for style objects). -/
inductive JsVal where
  | undef
  | nullV
  | boolV (b : Bool)
  | num (n : Int)
  | str (s : String)
  | fnRef (r : Nat)
  | obj (r : Nat) (entries : List (String × String))
deriving DecidableEq

/-- JavaScript strict equality (===) on modeled values: primitives
compare by value, functions and objects by reference token.  Two
object values model the same heap object exactly when they were built
with the same token (and hence the same entries), so structural
equality coincides with reference equality for well-formed values. -/
def jsEqb (a b : JsVal) : Bool := a = b

/-- JavaScript truthiness of a modeled value: undefined, null, false,
0 and the empty string are falsy, everything else is truthy. -/
def jsTruthy : JsVal → Bool
  | .undef => false
  | .nullV => false
  | .boolV b => b
  | .num n => !(n = 0 : Bool)
  | .str s => !(s = "" : Bool)
  | .fnRef _ => true
  | .obj _ _ => true

/-- String conversion as performed by document.createTextNode on a
nodeValue: strings pass through, numbers print in decimal (the only
two cases the program exercises). -/
def jsToString : JsVal → String
  | .str s => s
  | .num n => toString n
  | .boolV b => if b then "true" else "false"
  | .undef => "undefined"
  | .nullV => "null"
  | .fnRef _ => "function"
  | .obj _ _ => "[object Object]"

/-- Model of the type field of a VDOMNode: a string tag, or a function
reference (component).  Strict comparison of two type fields compares
strings by value and functions by reference, which is structural
equality here. -/
inductive NType where
  | str (s : String)
  | fn (r : Nat)
deriving DecidableEq

/-- Sentinel tag for text elements (source line 15). -/
def TEXT_ELEMENT : String := "TEXT_ELEMENT"

/-- Virtual-DOM node description: type, identity (a uuid assigned at
construction), attributes other than children (in object-key insertion
order, as Object.keys enumerates them), and the children array.  The
constructor React.createElement always stores the children array as
the last key of props, after the spread attributes; propEntries below
rebuilds that key order. -/
inductive VDOMNode where
  | mk (type : NType) (id : String) (attrs : List (String × JsVal)) (children : List VDOMNode)

def VDOMNode.type : VDOMNode → NType
  | .mk t _ _ _ => t

def VDOMNode.id : VDOMNode → String
  | .mk _ i _ _ => i

def VDOMNode.attrs : VDOMNode → List (String × JsVal)
  | .mk _ _ a _ => a

def VDOMNode.children : VDOMNode → List VDOMNode
  | .mk _ _ _ cs => cs

mutual

/-- Reference equality test of two VDOM nodes lifted to structure:
in the source, prop values that are nodes or arrays compare by
reference; the model identifies a reference with the full structure it
points to (two distinct renders always produce structurally distinct
nodes because every construction draws fresh uuids). -/
def nodeEqb : VDOMNode → VDOMNode → Bool
  | .mk t i a cs, .mk t' i' a' cs' =>
    t = t' && i = i' && a = a' && nodesEqb cs cs'

/-- Reference equality of two children arrays, lifted to structure
(see nodeEqb). -/
def nodesEqb : List VDOMNode → List VDOMNode → Bool
  | [], [] => true
  | a :: as, b :: bs => nodeEqb a b && nodesEqb as bs
  | _, _ => false

end

/-- Lookup of a prop value on an attrs list; a missing key reads as
undefined, as in JavaScript. -/
def lookupAttr : List (String × JsVal) → String → JsVal
  | [], _ => .undef
  | (k', x) :: rest, k => if k' = k then x else lookupAttr rest k

/-- Change records produced by the diff engine (source lines 190-213). -/
inductive Change where
  | replaceIdChanged (vdom : VDOMNode) (oldNodeId : String)
  | newNodeAdded (vdom : VDOMNode) (parentId : String)
  | replaceText (vdom : VDOMNode) (oldNodeId : String)
  | deleteOld (vdom : VDOMNode)
  | replaceNode (vdom : VDOMNode)

/-- A prop entry as enumerated by Object.keys inside compareNode: an
ordinary attribute value, or the children array (compared by
reference). -/
def PropEntry := String × (JsVal ⊕ List VDOMNode)

/-- Strict equality of two prop values inside compareNode: ordinary
values compare with ===, children arrays compare by reference
(modeled structurally, see nodeEqb), and a value never equals an
array. -/
def entryEqb : (JsVal ⊕ List VDOMNode) → (JsVal ⊕ List VDOMNode) → Bool
  | .inl a, .inl b => jsEqb a b
  | .inr a, .inr b => nodesEqb a b
  | _, _ => false

/-- Ordered prop entries in Object.keys order, attributes first, then
the children array as the final key (React.createElement always writes
children last). -/
def propEntriesAux : List (String × JsVal) → List VDOMNode → List (String × (JsVal ⊕ List VDOMNode))
  | [], cs => [("children", Sum.inr cs)]
  | (k, x) :: rest, cs => (k, Sum.inl x) :: propEntriesAux rest cs

/-- The ordered prop entries of a node as compareNode enumerates them:
the spread attributes in insertion order followed by the children key,
which React.createElement always writes last. -/
def propEntries (v : VDOMNode) : List (String × (JsVal ⊕ List VDOMNode)) :=
  propEntriesAux v.attrs v.children

/-- Which node a positional prop mismatch replaces: the loop in
compareNode (source lines 247-270) returns REPLACE_NODE carrying the
new node when an old key is missing or values differ, and carrying the
old node when a new key is missing. -/
inductive ReplaceSide where
  | newSide
  | oldSide

/-- Positional prop comparison of compareNode (source lines 247-270):
iterate the two key lists in parallel; a missing key on one side (out
of bounds, or an empty-string key, which is falsy in JavaScript)
decides immediately, otherwise the two values at the same index are
compared with strict equality. -/
def comparePropsLoop :
    List (String × (JsVal ⊕ List VDOMNode)) →
    List (String × (JsVal ⊕ List VDOMNode)) → Option ReplaceSide
  | [], [] => none
  | [], _ :: _ => some .newSide
  | _ :: _, [] => some .oldSide
  | (ko, vo) :: os, (kn, vn) :: ns =>
    if ko = "" then some .newSide
    else if kn = "" then some .oldSide
    else if entryEqb vo vn then comparePropsLoop os ns
    else some .newSide

/-- Node-level comparison (source lines 215-273): identity mismatch
yields REPLACE_NODE_WHERE_ID_CHANGED; then a type mismatch yields
REPLACE_NODE; then text nodes compare their nodeValue and may yield
REPLACE_TEXT carrying the old text node's own id; otherwise the props
are compared positionally. -/
def compareNode (o n : VDOMNode) : List Change :=
  if o.id ≠ n.id then [.replaceIdChanged n o.id]
  else if o.type ≠ n.type then [.replaceNode n]
  else if o.type = .str TEXT_ELEMENT ∧ n.type = .str TEXT_ELEMENT then
    if jsEqb (lookupAttr o.attrs "nodeValue") (lookupAttr n.attrs "nodeValue") then []
    else [.replaceText n o.id]
  else
    match comparePropsLoop (propEntries o) (propEntries n) with
    | none => []
    | some .newSide => [.replaceNode n]
    | some .oldSide => [.replaceNode o]

mutual

/-- Tree walk of the diff engine (source lines 309-328): concatenate
the node-level changes with the child-level changes.  The source guard
returning early when either children field is missing never fires,
because every VDOMNode carries a children array and arrays are truthy
in JavaScript. -/
def walk : VDOMNode → VDOMNode → List Change
  | .mk t i a cs, n => compareNode (.mk t i a cs) n ++ walkChildren cs n.children i

/-- Child-list walk (source lines 275-307): pairwise over indices; a
missing old child yields NEW_NODE_ADDED with the parent id (once the
old list is exhausted, every remaining new child yields one, in index
order), a missing new child yields DELETE_OLD, and both present
recurse through walk. -/
def walkChildren : List VDOMNode → List VDOMNode → String → List Change
  | [], ns, pid => ns.map (fun n => .newNodeAdded n pid)
  | o :: os, [], pid => .deleteOld o :: walkChildren os [] pid
  | o :: os, n :: ns, pid => walk o n ++ walkChildren os ns pid

end

/-- Entry point of the diff engine (source lines 330-332). -/
def diff (oldV newV : VDOMNode) : List Change := walk oldV newV

/-! Lemmas: strict equality is reflexive on modeled values and nodes
(the modeled value universe has no NaN, and a tree compared against
itself shares all its references). -/

theorem jsEqb_refl (v : JsVal) : jsEqb v v = true := by
  simp [jsEqb]

mutual

theorem nodeEqb_refl : ∀ v, nodeEqb v v = true
  | .mk t i a cs => by
    simp [nodeEqb, nodesEqb_refl cs]

theorem nodesEqb_refl : ∀ vs, nodesEqb vs vs = true
  | [] => by simp [nodesEqb]
  | c :: cs => by simp [nodesEqb, nodeEqb_refl c, nodesEqb_refl cs]

end

theorem entryEqb_refl (e : JsVal ⊕ List VDOMNode) : entryEqb e e = true := by
  cases e with
  | inl v => simp [entryEqb, jsEqb]
  | inr vs => simp [entryEqb, nodesEqb_refl]

/-- Key lists with no empty-string key: the positional prop loop of
compareNode treats an empty-string key as missing (falsy in
JavaScript), so self-comparison is only change-free on nodes whose
attribute keys are all nonempty. -/
def attrsKeysNonempty (a : List (String × JsVal)) : Bool :=
  a.all (fun p => !(p.1 = "" : Bool))

mutual

/-- All attribute keys throughout a tree are nonempty. -/
def noEmptyKeys : VDOMNode → Bool
  | .mk _ _ a cs => attrsKeysNonempty a && noEmptyKeysAll cs

/-- All attribute keys throughout a forest are nonempty. -/
def noEmptyKeysAll : List VDOMNode → Bool
  | [] => true
  | c :: cs => noEmptyKeys c && noEmptyKeysAll cs

end

theorem comparePropsLoop_self :
    ∀ es : List (String × (JsVal ⊕ List VDOMNode)),
    es.all (fun p => !(p.1 = "" : Bool)) = true → comparePropsLoop es es = none := by
  intro es h
  induction es with
  | nil => rfl
  | cons e rest ih =>
    obtain ⟨k, v⟩ := e
    simp only [List.all_cons, Bool.and_eq_true] at h
    have hk : ¬(k = "") := by simpa using h.1
    simp [comparePropsLoop, hk, entryEqb_refl, ih h.2]

theorem propEntriesAux_keys_nonempty :
    ∀ (a : List (String × JsVal)) (cs : List VDOMNode),
    attrsKeysNonempty a = true →
    (propEntriesAux a cs).all (fun p => !(p.1 = "" : Bool)) = true := by
  intro a cs h
  induction a with
  | nil => rfl
  | cons e rest ih =>
    obtain ⟨k, x⟩ := e
    simp only [attrsKeysNonempty, List.all_cons, Bool.and_eq_true] at h
    simp only [propEntriesAux, List.all_cons, Bool.and_eq_true]
    exact ⟨h.1, ih h.2⟩

theorem compareNode_self (v : VDOMNode) (h : attrsKeysNonempty v.attrs = true) :
    compareNode v v = [] := by
  have hloop : comparePropsLoop (propEntries v) (propEntries v) = none :=
    comparePropsLoop_self _ (propEntriesAux_keys_nonempty v.attrs v.children h)
  by_cases ht : v.type = NType.str TEXT_ELEMENT
  · simp [compareNode, ht, jsEqb_refl]
  · simp [compareNode, ht, hloop]

mutual

theorem walk_self : ∀ v, noEmptyKeys v = true → walk v v = []
  | .mk t i a cs => fun h => by
    have h' : attrsKeysNonempty a = true ∧ noEmptyKeysAll cs = true := by
      simpa [noEmptyKeys, Bool.and_eq_true] using h
    have hc := walkChildren_self cs i h'.2
    have hn : compareNode (VDOMNode.mk t i a cs) (VDOMNode.mk t i a cs) = [] :=
      compareNode_self _ (by simpa [VDOMNode.attrs] using h'.1)
    simp [walk, VDOMNode.children, hn, hc]

theorem walkChildren_self : ∀ cs pid, noEmptyKeysAll cs = true → walkChildren cs cs pid = []
  | [], _ => fun _ => by simp [walkChildren]
  | c :: cs', pid => fun h => by
    have h' : noEmptyKeys c = true ∧ noEmptyKeysAll cs' = true := by
      simpa [noEmptyKeysAll, Bool.and_eq_true] using h
    simp [walkChildren, walk_self c h'.1, walkChildren_self cs' pid h'.2]

end

/-- C5 amended: diff of a tree against itself is empty, for trees all
of whose attribute keys are nonempty. -/
theorem c5_diff_self_empty (v : VDOMNode) (h : noEmptyKeys v = true) :
    diff v v = [] := walk_self v h

/-- Concrete tree used by the C5 witness. -/
def c5Tree : VDOMNode :=
  .mk (.str "div") "a" [("title", .str "x")]
    [.mk (.str TEXT_ELEMENT) "b" [("nodeValue", .str "hi")] []]

/-- C5 witness: the amended self-diff theorem applied to a concrete
two-node tree. -/
theorem c5_witness : noEmptyKeys c5Tree = true ∧ diff c5Tree c5Tree = [] :=
  ⟨rfl, c5_diff_self_empty c5Tree rfl⟩

/-- Concrete tree with an empty-string attribute key used by the C5
counterexample. -/
def c5Bad : VDOMNode := .mk (.str "div") "a" [("", .num 1)] []

/-- C5 counterexample: diff of a tree against itself is not empty when
the tree carries an empty-string attribute key, because the positional
prop loop treats the falsy key as missing and emits REPLACE_NODE. -/
theorem c5_counterexample :
    diff c5Bad c5Bad = [Change.replaceNode c5Bad] ∧ diff c5Bad c5Bad ≠ [] := by
  refine ⟨rfl, ?_⟩
  intro hcontra
  rw [show diff c5Bad c5Bad = [Change.replaceNode c5Bad] from rfl] at hcontra
  exact List.cons_ne_nil _ _ hcontra

/-- C2 amended: when the root identities differ, diff emits the
REPLACE_NODE_WHERE_ID_CHANGED change (carrying the new subtree and the
old identity) as its first change, and then still recurses into the
two children arrays, appending whatever changes they produce; the
result is a single change only when the child walk is empty. -/
theorem c2_identity_change_prepends_replace (o n : VDOMNode) (h : o.id ≠ n.id) :
    diff o n = Change.replaceIdChanged n o.id :: walkChildren o.children n.children o.id := by
  cases o with
  | mk t i a cs =>
    have hid : VDOMNode.id (.mk t i a cs) ≠ n.id := h
    simp only [VDOMNode.id] at hid
    simp [diff, walk, compareNode, VDOMNode.id, VDOMNode.children, hid]

/-- Old tree for the C2 witness and counterexample contexts: a parent
with identity a and a single empty child with identity c. -/
def c2Old : VDOMNode := .mk (.str "div") "a" [] [.mk (.str "span") "c" [] []]

/-- New tree whose root and child identities both differ from c2Old. -/
def c2New : VDOMNode := .mk (.str "div") "b" [] [.mk (.str "span") "d" [] []]

/-- C2 witness: the amended theorem applied to the concrete pair. -/
theorem c2_witness :
    diff c2Old c2New =
      Change.replaceIdChanged c2New "a" :: walkChildren c2Old.children c2New.children "a" :=
  c2_identity_change_prepends_replace c2Old c2New (by decide)

/-- C2 counterexample: on a pair whose root identities differ, diff
emits a second change coming from the recursion into the children
(here the child identity changed too), so it does not stop at exactly
one change as claimed. -/
theorem c2_counterexample :
    c2Old.id ≠ c2New.id ∧
    diff c2Old c2New =
      [Change.replaceIdChanged c2New "a",
       Change.replaceIdChanged (.mk (.str "span") "d" [] []) "c"] ∧
    (diff c2Old c2New).length ≠ 1 := by
  refine ⟨by decide, rfl, ?_⟩
  rw [show diff c2Old c2New =
    [Change.replaceIdChanged c2New "a",
     Change.replaceIdChanged (.mk (.str "span") "d" [] []) "c"] from rfl]
  decide

/-- Old tree for C4: a div with identity d containing one text node
with identity t and value a. -/
def c4Old : VDOMNode :=
  .mk (.str "div") "d" [] [.mk (.str TEXT_ELEMENT) "t" [("nodeValue", .str "a")] []]

/-- The new text node of the C4 pair: same identity t, new value b. -/
def c4NewText : VDOMNode := .mk (.str TEXT_ELEMENT) "t" [("nodeValue", .str "b")] []

/-- New tree for C4: identical to c4Old except the text value. -/
def c4New : VDOMNode := .mk (.str "div") "d" [] [c4NewText]

/-- C4 evaluation at the failing input: two otherwise identical trees
differing in one text value produce TWO changes, not one - a
REPLACE_NODE for the parent (its children prop, freshly built on each
render, fails the strict-equality check) followed by the REPLACE_TEXT
- and the REPLACE_TEXT carries the text node's own identity t, which
differs from the parent identity d that would be needed to locate the
parent element (elements are the only nodes stamped with data-id, so a
lookup by t finds nothing). -/
theorem c4_code_behavior :
    diff c4Old c4New = [Change.replaceNode c4New, Change.replaceText c4NewText "t"] ∧
    (diff c4Old c4New).length = 2 ∧
    "t" ≠ "d" := by
  refine ⟨rfl, ?_, by decide⟩
  rw [show diff c4Old c4New =
    [Change.replaceNode c4New, Change.replaceText c4NewText "t"] from rfl]
  rfl

mutual

/-- Height of a node description tree: one more than the height of its
children forest; bounds the depth of the mutual recursion of walk and
walkChildren. -/
def height : VDOMNode → Nat
  | .mk _ _ _ cs => heightL cs + 1

/-- Height of a forest: maximum height of its members. -/
def heightL : List VDOMNode → Nat
  | [] => 0
  | c :: cs => max (height c) (heightL cs)

end

mutual

/-- Fuel-indexed version of walk: each nested walk invocation consumes
one unit of fuel, so the fuel measures the depth of the call stack the
source recursion would need; none models non-completion within the
given bound. -/
def walkF : Nat → VDOMNode → VDOMNode → Option (List Change)
  | 0, _, _ => none
  | f + 1, o, n =>
    (walkChildrenF f o.children n.children o.id).map (fun cs => compareNode o n ++ cs)
termination_by f _ _ => (f, 0)

/-- Fuel-indexed version of walkChildren; the list traversal itself
consumes no fuel, matching the source where only walk recursion nests. -/
def walkChildrenF : Nat → List VDOMNode → List VDOMNode → String → Option (List Change)
  | _, [], ns, pid => some (ns.map (fun n => .newNodeAdded n pid))
  | f, o :: os, [], pid => (walkChildrenF f os [] pid).map (fun cs => .deleteOld o :: cs)
  | f, o :: os, n :: ns, pid => do
    let a ← walkF f o n
    let b ← walkChildrenF f os ns pid
    some (a ++ b)
termination_by f os _ _ => (f, os.length + 1)

end

theorem walkF_complete :
    ∀ f, (∀ o n, height o ≤ f → walkF f o n = some (walk o n)) ∧
      (∀ os ns pid, heightL os ≤ f → walkChildrenF f os ns pid = some (walkChildren os ns pid)) := by
  intro f
  induction f with
  | zero =>
    constructor
    · intro o n h
      exfalso
      cases o with
      | mk t i a cs => simp [height] at h
    · intro os ns pid h
      cases os with
      | nil => cases ns <;> simp [walkChildrenF, walkChildren]
      | cons c cs =>
        cases c with
        | mk t i a cs' => simp [heightL, height] at h
  | succ f ih =>
    have A : ∀ o n, height o ≤ f + 1 → walkF (f + 1) o n = some (walk o n) := by
      intro o n h
      cases o with
      | mk t i a cs =>
        cases n with
        | mk tn idn an csn =>
          have hc : heightL cs ≤ f := by
            simp only [height] at h
            omega
          have hch := ih.2 cs csn i hc
          simp [walkF, walk, VDOMNode.children, VDOMNode.id, hch]
    refine ⟨A, ?_⟩
    intro os ns pid h
    induction os generalizing ns with
    | nil => cases ns <;> simp [walkChildrenF, walkChildren]
    | cons c cs ihc =>
      have hsplit : height c ≤ f + 1 ∧ heightL cs ≤ f + 1 := by
        simp only [heightL, Nat.max_le] at h
        exact h
      cases ns with
      | nil =>
        have := ihc [] hsplit.2
        simp [walkChildrenF, walkChildren, this]
      | cons n ns' =>
        have h1 := A c n hsplit.1
        have h2 := ihc ns' hsplit.2
        simp [walkChildrenF, walkChildren, h1, h2]

/-- C9: the mutual recursion of walk and walkChildren terminates on
every pair of finite trees: any fuel bound of at least the old tree's
height makes the fuel-indexed walk complete, returning exactly the
change list diff computes. -/
theorem c9_diff_terminates (o n : VDOMNode) (f : Nat) (h : height o ≤ f) :
    walkF f o n = some (diff o n) :=
  (walkF_complete f).1 o n h

/-- C9 witness: the termination theorem applied to the concrete C2
pair at fuel 2 (the tree height). -/
theorem c9_witness : height c2Old ≤ 2 ∧ walkF 2 c2Old c2New = some (diff c2Old c2New) :=
  ⟨by decide, c9_diff_terminates c2Old c2New 2 (by decide)⟩

/-! Attribute application rule of initialRender (source lines 74-112). -/

/-- Character-list prefix test (String.startsWith on ASCII keys). -/
def listPrefixEq : List Char → List Char → Bool
  | [], _ => true
  | _ :: _, [] => false
  | a :: as, b :: bs => a = b && listPrefixEq as bs

/-- The JavaScript key.startsWith check used for event attributes. -/
def jsStartsWith (s pre : String) : Bool := listPrefixEq pre.data s.data

/-- The JavaScript toLowerCase used to derive the event name. -/
def jsToLowerStr (s : String) : String := ⟨s.data.map Char.toLower⟩

/-- The JavaScript substring(n) used to strip the event prefix. -/
def jsDropStr (s : String) (n : Nat) : String := ⟨s.data.drop n⟩

/-- The JavaScript typeof x === the object tag: true for plain objects
and for null (typeof null is the object tag); the program only ever
takes this branch with a style object, never with null, so the
Object.entries throw on null stays out of the modeled executions. -/
def isObjectTypeof : JsVal → Bool
  | .obj _ _ => true
  | .nullV => true
  | _ => false

/-- Flattening of a style object into a single attribute string
(source lines 102-104). -/
def styleString : JsVal → String
  | .obj _ entries => String.intercalate "; " (entries.map (fun p => p.1 ++ ": " ++ p.2))
  | _ => ""

/-- One display-tree write performed while applying an attribute. -/
inductive DomOp where
  | addEvent (name : String) (handler : JsVal)
  | setAttr (key : String) (value : JsVal)
deriving DecidableEq

/-- Application of a single non-children attribute (source lines
74-112): event-prefixed keys register a listener and return early;
className and htmlFor write the colliding platform name without
returning; an object-valued style key writes the flattened string and
returns early; every path that did not return falls through to the
literal-key write. -/
def processAttr (key : String) (v : JsVal) : List DomOp :=
  if jsStartsWith key "on" then
    [.addEvent (jsToLowerStr (jsDropStr key 2)) v]
  else
    let classOps := if key = "className" then [DomOp.setAttr "class" v] else []
    let forOps := if key = "htmlFor" then [DomOp.setAttr "for" v] else []
    if key = "style" && isObjectTypeof v then
      classOps ++ forOps ++ [.setAttr "style" (.str (styleString v))]
    else
      classOps ++ forOps ++ [.setAttr key v]

/-- Application of a whole attrs list in key order (the children key
was destructured away before the loop, source line 73). -/
def processAttrs : List (String × JsVal) → List DomOp
  | [] => []
  | (k, v) :: rest => processAttr k v ++ processAttrs rest

/-- C6 amended: the literal-key fallback write runs for reserved-name
keys (className and htmlFor are therefore written twice, once under
the platform name and once under their literal key) and for plain
keys, but event-prefixed keys and object-valued style keys return
before the fallback and are written exactly once. -/
theorem c6_attr_fallback (key : String) (v : JsVal) :
    (jsStartsWith key "on" = true →
      processAttr key v = [.addEvent (jsToLowerStr (jsDropStr key 2)) v]) ∧
    processAttr "className" v = [.setAttr "class" v, .setAttr "className" v] ∧
    processAttr "htmlFor" v = [.setAttr "for" v, .setAttr "htmlFor" v] ∧
    (isObjectTypeof v = true →
      processAttr "style" v = [.setAttr "style" (.str (styleString v))]) ∧
    (jsStartsWith key "on" = false → key ≠ "className" → key ≠ "htmlFor" →
      (key = "style" → isObjectTypeof v = false) →
      processAttr key v = [.setAttr key v]) := by
  refine ⟨?_, ?_, ?_, ?_, ?_⟩
  · intro h
    simp [processAttr, h]
  · simp [processAttr, jsStartsWith, listPrefixEq]
  · simp [processAttr, jsStartsWith, listPrefixEq]
  · intro h
    simp [processAttr, jsStartsWith, listPrefixEq, h]
  · intro h1 h2 h3 h4
    by_cases hs : key = "style"
    · subst hs
      simp [processAttr, h1, h2, h3, h4 rfl]
    · simp [processAttr, h1, h2, h3, hs]

/-- C6 witness: the amended theorem applied to the four concrete
attribute shapes the program uses. -/
theorem c6_witness :
    processAttr "onClick" (.fnRef 0) = [.addEvent "click" (.fnRef 0)] ∧
    processAttr "className" (.str "box") =
      [.setAttr "class" (.str "box"), .setAttr "className" (.str "box")] ∧
    processAttr "style" (.obj 7 [("color", "red")]) =
      [.setAttr "style" (.str "color: red")] ∧
    processAttr "title" (.str "x") = [.setAttr "title" (.str "x")] :=
  ⟨((c6_attr_fallback "onClick" (.fnRef 0)).1 rfl).trans (by decide),
   (c6_attr_fallback "className" (.str "box")).2.1,
   ((c6_attr_fallback "style" (.obj 7 [("color", "red")])).2.2.2.1 rfl).trans (by decide),
   (c6_attr_fallback "title" (.str "x")).2.2.2.2 rfl (by decide) (by decide)
     (fun hcontra => absurd hcontra (by decide))⟩

/-- C6 counterexample: for the event-prefixed key onClick the fallback
write under the literal key is NOT executed - the event branch
registers the listener and returns early, so the claimed always-run
literal-key write never happens for event keys. -/
theorem c6_counterexample :
    processAttr "onClick" (.fnRef 0) = [.addEvent "click" (.fnRef 0)] ∧
    DomOp.setAttr "onClick" (.fnRef 0) ∉ processAttr "onClick" (.fnRef 0) := by
  refine ⟨by decide, ?_⟩
  rw [show processAttr "onClick" (.fnRef 0) = [.addEvent "click" (.fnRef 0)] by decide]
  decide

/-! State-slot store (source lines 124-158).  Uuids drawn by the v4
generator are modeled as the strings u0, u1, u2, ... in draw order;
START_ID is the uuid drawn first, at module evaluation (source line
124), before any node is constructed. -/

/-- The uuid drawn at module load used as the first slot key. -/
def START_ID : String := "u0"

/-- Reading a property of the states record; a missing key reads as
undefined. -/
def getState : List (String × JsVal) → String → JsVal
  | [], _ => .undef
  | (k', x) :: rest, k => if k' = k then x else getState rest k

/-- Assigning a property of the states record: overwrite an existing
key in place, or append a new one. -/
def setStateMap : List (String × JsVal) → String → JsVal → List (String × JsVal)
  | [], k, v => [(k, v)]
  | (k', x) :: rest, k, v =>
    if k' = k then (k, v) :: rest else (k', x) :: setStateMap rest k v

/-- Uuid counter plus states record, the mutable module state the
useState hook touches. -/
structure HookState where
  next : Nat
  states : List (String × JsVal)
deriving DecidableEq

/-- Drawing one fresh v4 uuid. -/
def freshUuid (h : HookState) : String × HookState :=
  ("u" ++ toString h.next, { h with next := h.next + 1 })

/-- One useState call (source lines 132-158, excluding the returned
setter closure): FROZEN_KEY is START_ID while the value stored at
START_ID is falsy and a freshly drawn uuid otherwise; the slot is then
overwritten with itself-if-truthy-else-initial (the JavaScript
short-circuit or), and the stored value is returned together with the
frozen key the setter closure captures. -/
def useStateStep (h : HookState) (initial : JsVal) : JsVal × String × HookState :=
  let fkh : String × HookState :=
    if jsTruthy (getState h.states START_ID) then freshUuid h else (START_ID, h)
  let fk := fkh.1
  let h1 := fkh.2
  let stored := getState h1.states fk
  let newVal := if jsTruthy stored then stored else initial
  (newVal, fk, { h1 with states := setStateMap h1.states fk newVal })

/-- C10: when the value stored at the slot the call reads is falsy,
useState overwrites that slot with the supplied initial value and
returns the initial value, not the stored one; the falsy stored value
does not survive the re-read. -/
theorem c10_falsy_slot_overwritten (h : HookState) (initial : JsVal)
    (hf : jsTruthy (getState h.states START_ID) = false) :
    useStateStep h initial =
      (initial, START_ID, { h with states := setStateMap h.states START_ID initial }) := by
  simp [useStateStep, hf]

/-- C10 witness: a slot holding the falsy number 0 is overwritten by a
subsequent useState with initial value 5, which also returns 5. -/
theorem c10_witness :
    jsTruthy (getState [(START_ID, JsVal.num 0)] START_ID) = false ∧
    useStateStep ⟨1, [(START_ID, JsVal.num 0)]⟩ (JsVal.num 5) =
      (JsVal.num 5, START_ID, ⟨1, [(START_ID, JsVal.num 5)]⟩) :=
  ⟨by decide,
   (c10_falsy_slot_overwritten ⟨1, [(START_ID, JsVal.num 0)]⟩ (JsVal.num 5) (by decide)).trans
     (by decide)⟩

/-- First render of a single-slot component: initial states record is
the module initializer with null at START_ID. -/
def c3Render1 : JsVal × String × HookState :=
  useStateStep ⟨1, [(START_ID, JsVal.nullV)]⟩ (JsVal.num 0)

/-- The states record after the setter captured by the first render
writes 1 through its frozen key. -/
def c3AfterSet : HookState :=
  { c3Render1.2.2 with
    states := setStateMap c3Render1.2.2.states c3Render1.2.1 (JsVal.num 1) }

/-- Second render of the same component, invoking useState in the same
order and count. -/
def c3Render2 : JsVal × String × HookState := useStateStep c3AfterSet (JsVal.num 0)

/-- C3 evaluation at the failing input: the first render reads slot
START_ID and returns 0; the setter writes 1 into that slot; but the
second render, invoking useState in exactly the same order and count,
does NOT read the same slot - because the stored value is now truthy
it mints the fresh key u1 and returns the initial value 0 instead of
the stored 1 (the old slot still holds 1, it is never deleted). -/
theorem c3_code_behavior :
    c3Render1.2.1 = START_ID ∧ c3Render1.1 = JsVal.num 0 ∧
    getState c3AfterSet.states START_ID = JsVal.num 1 ∧
    c3Render2.2.1 = "u1" ∧ c3Render2.2.1 ≠ c3Render1.2.1 ∧
    c3Render2.1 = JsVal.num 0 ∧ c3Render2.1 ≠ JsVal.num 1 := by
  refine ⟨rfl, rfl, rfl, rfl, by decide, rfl, by decide⟩

/-- One setState invocation (source lines 144-155): a function
argument is treated as a callback and the slot receives its result on
the current slot value, any other argument is stored as-is; in both
cases the rerender trigger fires exactly once, modeled by the counter
in the second component. -/
def setStateStep (st : List (String × JsVal)) (fk : String)
    (arg : JsVal ⊕ (JsVal → JsVal)) (rerenders : Nat) :
    List (String × JsVal) × Nat :=
  match arg with
  | .inr cb => (setStateMap st fk (cb (getState st fk)), rerenders + 1)
  | .inl v => (setStateMap st fk v, rerenders + 1)

theorem getState_setStateMap (st : List (String × JsVal)) (k : String) (v : JsVal) :
    getState (setStateMap st k v) k = v := by
  induction st with
  | nil => simp [setStateMap, getState]
  | cons e rest ih =>
    obtain ⟨k', x⟩ := e
    by_cases hk : k' = k
    · simp [setStateMap, getState, hk]
    · simp [setStateMap, getState, hk, ih]

/-- C8: the setter stores a literal argument as-is and stores the
result of a callback argument applied to the current slot value, fires
the rerender trigger exactly once per call, and two consecutive
literal calls with v1 then v2 leave the slot holding v2 and fire the
trigger exactly twice. -/
theorem c8_setter_behavior (st : List (String × JsVal)) (fk : String)
    (v1 v2 : JsVal) (cb : JsVal → JsVal) (c : Nat) :
    setStateStep st fk (Sum.inl v1) c = (setStateMap st fk v1, c + 1) ∧
    getState (setStateStep st fk (Sum.inl v1) c).1 fk = v1 ∧
    setStateStep st fk (Sum.inr cb) c = (setStateMap st fk (cb (getState st fk)), c + 1) ∧
    getState
      (setStateStep (setStateStep st fk (Sum.inl v1) c).1 fk (Sum.inl v2)
        (setStateStep st fk (Sum.inl v1) c).2).1 fk = v2 ∧
    (setStateStep (setStateStep st fk (Sum.inl v1) c).1 fk (Sum.inl v2)
      (setStateStep st fk (Sum.inl v1) c).2).2 = c + 2 := by
  refine ⟨rfl, ?_, rfl, ?_, rfl⟩
  · simp [setStateStep, getState_setStateMap]
  · simp [setStateStep, getState_setStateMap]

/-! Live display tree and the patch applier.  A DomNode is a real DOM
node: a text node, or an element carrying its tag, the data-id stamp
(source line 72), its written attributes, its registered event
listeners and its child nodes.  The container's child list is a forest
List DomNode. -/

/-- One live display-tree node. -/
inductive DomNode where
  | text (value : String)
  | elem (tag : String) (dataId : String) (attrs : List (String × JsVal))
      (listeners : List (String × JsVal)) (children : List DomNode)

mutual

/-- Does document.querySelector find an element stamped with this
data-id inside this node (document order)? -/
def lookupIdN : DomNode → String → Bool
  | .text _, _ => false
  | .elem _ did _ _ cs, id => did = id || lookupIdF cs id

/-- Does document.querySelector find an element stamped with this
data-id inside this forest? -/
def lookupIdF : List DomNode → String → Bool
  | [], _ => false
  | d :: ds, id => lookupIdN d id || lookupIdF ds id

end

mutual

/-- Replacement of the first element stamped with the given data-id by
a splice of nodes (element.replaceWith, also used for remove with an
empty splice); none means no element carries the id inside this node. -/
def replaceByIdN : DomNode → String → List DomNode → Option (List DomNode)
  | .text _, _, _ => none
  | .elem t did a l cs, id, repl =>
    if did = id then some repl
    else
      match replaceByIdF cs id repl with
      | some cs' => some [.elem t did a l cs']
      | none => none

/-- Replacement inside a forest, first match in document order. -/
def replaceByIdF : List DomNode → String → List DomNode → Option (List DomNode)
  | [], _, _ => none
  | d :: ds, id, repl =>
    match replaceByIdN d id repl with
    | some d' => some (d' ++ ds)
    | none =>
      match replaceByIdF ds id repl with
      | some ds' => some (d :: ds')
      | none => none

end

mutual

/-- Appending nodes as last children of the first element stamped with
the given data-id (parentElement.appendChild); none when the id is
absent. -/
def appendByIdN : DomNode → String → List DomNode → Option DomNode
  | .text _, _, _ => none
  | .elem t did a l cs, id, ns =>
    if did = id then some (.elem t did a l (cs ++ ns))
    else
      match appendByIdF cs id ns with
      | some cs' => some (.elem t did a l cs')
      | none => none

/-- Appending inside a forest, first match in document order. -/
def appendByIdF : List DomNode → String → List DomNode → Option (List DomNode)
  | [], _, _ => none
  | d :: ds, id, ns =>
    match appendByIdN d id ns with
    | some d' => some (d' :: ds)
    | none =>
      match appendByIdF ds id ns with
      | some ds' => some (d :: ds')
      | none => none

end

/-- Error raised by a patch step: the model's recursion bound ran out
(fuelOut, a model artifact, see buildListF), or a real JavaScript
TypeError (replaceChild called with a null second argument). -/
inductive BErr where
  | fuelOut
  | typeError
deriving DecidableEq

mutual

/-- The REPLACE_TEXT mutation (source lines 336-354) on one node: find
the element stamped with the data-id; replace its first child by the
new text node; if the element has no first child, replaceChild throws
a TypeError; none when the id is absent in this node. -/
def replaceTextN : DomNode → String → DomNode → Option (Except BErr DomNode)
  | .text _, _, _ => none
  | .elem t did a l cs, id, newText =>
    if did = id then
      match cs with
      | [] => some (.error .typeError)
      | _ :: rest => some (.ok (.elem t did a l (newText :: rest)))
    else
      match replaceTextF cs id newText with
      | some (.ok cs') => some (.ok (.elem t did a l cs'))
      | some (.error e) => some (.error e)
      | none => none

/-- The REPLACE_TEXT mutation on a forest, first match in document
order. -/
def replaceTextF : List DomNode → String → DomNode → Option (Except BErr (List DomNode))
  | [], _, _ => none
  | d :: ds, id, nt =>
    match replaceTextN d id nt with
    | some (.ok d') => some (.ok (d' :: ds))
    | some (.error e) => some (.error e)
    | none =>
      match replaceTextF ds id nt with
      | some (.ok ds') => some (.ok (d :: ds'))
      | some (.error e) => some (.error e)
      | none => none

end

mutual

theorem lookupIdN_false_replaceByIdN :
    ∀ (d : DomNode) (id : String) (repl : List DomNode),
    lookupIdN d id = false → replaceByIdN d id repl = none
  | .text _, _, _ => fun _ => rfl
  | .elem t did a l cs, id, repl => fun h => by
    simp only [lookupIdN, Bool.or_eq_false_iff] at h
    have hd : ¬(did = id) := by simpa using h.1
    simp [replaceByIdN, hd, lookupIdF_false_replaceByIdF cs id repl h.2]

theorem lookupIdF_false_replaceByIdF :
    ∀ (ds : List DomNode) (id : String) (repl : List DomNode),
    lookupIdF ds id = false → replaceByIdF ds id repl = none
  | [], _, _ => fun _ => rfl
  | d :: ds, id, repl => fun h => by
    simp only [lookupIdF, Bool.or_eq_false_iff] at h
    simp [replaceByIdF, lookupIdN_false_replaceByIdN d id repl h.1,
      lookupIdF_false_replaceByIdF ds id repl h.2]

end

mutual

theorem lookupIdN_false_appendByIdN :
    ∀ (d : DomNode) (id : String) (ns : List DomNode),
    lookupIdN d id = false → appendByIdN d id ns = none
  | .text _, _, _ => fun _ => rfl
  | .elem t did a l cs, id, ns => fun h => by
    simp only [lookupIdN, Bool.or_eq_false_iff] at h
    have hd : ¬(did = id) := by simpa using h.1
    simp [appendByIdN, hd, lookupIdF_false_appendByIdF cs id ns h.2]

theorem lookupIdF_false_appendByIdF :
    ∀ (ds : List DomNode) (id : String) (ns : List DomNode),
    lookupIdF ds id = false → appendByIdF ds id ns = none
  | [], _, _ => fun _ => rfl
  | d :: ds, id, ns => fun h => by
    simp only [lookupIdF, Bool.or_eq_false_iff] at h
    simp [appendByIdF, lookupIdN_false_appendByIdN d id ns h.1,
      lookupIdF_false_appendByIdF ds id ns h.2]

end

mutual

theorem lookupIdN_false_replaceTextN :
    ∀ (d : DomNode) (id : String) (nt : DomNode),
    lookupIdN d id = false → replaceTextN d id nt = none
  | .text _, _, _ => fun _ => rfl
  | .elem t did a l cs, id, nt => fun h => by
    simp only [lookupIdN, Bool.or_eq_false_iff] at h
    have hd : ¬(did = id) := by simpa using h.1
    simp [replaceTextN, hd, lookupIdF_false_replaceTextF cs id nt h.2]

theorem lookupIdF_false_replaceTextF :
    ∀ (ds : List DomNode) (id : String) (nt : DomNode),
    lookupIdF ds id = false → replaceTextF ds id nt = none
  | [], _, _ => fun _ => rfl
  | d :: ds, id, nt => fun h => by
    simp only [lookupIdF, Bool.or_eq_false_iff] at h
    simp [replaceTextF, lookupIdN_false_replaceTextN d id nt h.1,
      lookupIdF_false_replaceTextF ds id nt h.2]

end

/-- The data captured by one handleClick closure (source lines
167-173): the frozen slot key captured by the setCount setter and the
count value read in that render. -/
structure Closure where
  fk : String
  count : JsVal

/-- The mutable render state the materializer may touch: the uuid
counter (uuids are drawn as u0, u1, ... in order), a counter handing
out reference tokens for freshly created closures, the states record
and the closure table.  The live display tree is deliberately not part
of this state: materialization produces detached nodes, and only the
patch applier and the mount entry point write the display tree. -/
structure RSt where
  next : Nat
  nextRef : Nat
  states : List (String × JsVal)
  closures : List (Nat × Closure)

/-- The whole mutable module state: the render state, the
previous-tree reference oldVDOM, and the container's live child
forest. -/
structure Sys where
  rst : RSt
  oldV : Option VDOMNode
  dom : List DomNode

/-- Drawing one fresh v4 uuid. -/
def freshUuidR (r : RSt) : String × RSt :=
  ("u" ++ toString r.next, { r with next := r.next + 1 })

/-- One useState call running against the render state (see
useStateStep). -/
def useStateR (r : RSt) (initial : JsVal) : JsVal × String × RSt :=
  let u := useStateStep ⟨r.next, r.states⟩ initial
  (u.1, u.2.1, { r with next := u.2.2.next, states := u.2.2.states })

/-- The reference token of the module's single component function App;
every node built as a transpiled App element carries this token as its
function-typed kind. -/
def APP_FN : Nat := 0

/-- A text element as built by createTextElement (source lines 45-54),
with a freshly drawn id. -/
def textNode (id : String) (v : JsVal) : VDOMNode :=
  .mk (.str TEXT_ELEMENT) id [("nodeValue", v)] []

/-- The tree App returns (source lines 177-187), parameterized by the
six uuids drawn while the transpiled createElement calls evaluate (in
evaluation order: the h1 element, its two text children, the button,
its text child, the div last), the count value interpolated into the
second text child, and the reference token of the handleClick closure
registered as onClick. -/
def appTree (idH idT1 idT2 idB idT3 idD : String) (count : JsVal) (handlerRef : Nat) : VDOMNode :=
  .mk (.str "div") idD []
    [.mk (.str "h1") idH [] [textNode idT1 (.str "Count: "), textNode idT2 count],
     .mk (.str "button") idB [("onClick", .fnRef handlerRef)]
       [textNode idT3 (.str "Click Me")]]

/-- One invocation of the component App (source lines 164-188): call
useState 0, create the handleClick closure capturing the frozen key
and the count just read, then evaluate the JSX into a fresh tree.  App
ignores its props argument. -/
def appRender (r : RSt) : VDOMNode × RSt :=
  let u := useStateR r (.num 0)
  let count := u.1
  let fk := u.2.1
  let r1 := u.2.2
  let ref := r1.nextRef
  let r2 := { r1 with nextRef := ref + 1, closures := r1.closures ++ [(ref, ⟨fk, count⟩)] }
  let p1 := freshUuidR r2
  let p2 := freshUuidR p1.2
  let p3 := freshUuidR p2.2
  let p4 := freshUuidR p3.2
  let p5 := freshUuidR p4.2
  let p6 := freshUuidR p5.2
  (appTree p1.1 p2.1 p3.1 p4.1 p5.1 p6.1 count ref, p6.2)

/-- Interpretation of the attribute loop's writes on a fresh element:
setAttribute overwrites the key in place (or appends it),
addEventListener appends a listener. -/
def applyOpsAux : List DomOp → List (String × JsVal) × List (String × JsVal) →
    List (String × JsVal) × List (String × JsVal)
  | [], acc => acc
  | .setAttr k v :: rest, (as, ls) => applyOpsAux rest (setStateMap as k v, ls)
  | .addEvent n h :: rest, (as, ls) => applyOpsAux rest (as, ls ++ [(n, h)])

/-- Attributes and listeners of a freshly created element after the
whole attribute loop ran. -/
def applyOps (ops : List DomOp) : List (String × JsVal) × List (String × JsVal) :=
  applyOpsAux ops ([], [])

/-- Materialization of a worklist of node descriptions into detached
display nodes, the recursion of initialRender (source lines 58-122)
minus the container append and the oldVDOM writes: a function-typed
node invokes the module's single component App (source line 62; the
node's own children are never mounted), a text node becomes a text
display node from its stringified nodeValue, and an element is
created, stamped with its description's id, receives its attributes
through the attribute loop and mounts its children in order.  The fuel
counts recursion steps; none models running out of the model's bound
(the source recursion has no bound; c7_missing_target_noop keeps this
model artifact separate from real errors). -/
def buildListF : Nat → RSt → List VDOMNode → Option (RSt × List DomNode)
  | 0, _, _ => none
  | _ + 1, r, [] => some (r, [])
  | f + 1, r, v :: rest =>
    match v with
    | .mk (.fn _) _ _ _ =>
      let a := appRender r
      match buildListF f a.2 [a.1] with
      | none => none
      | some (r1, ds) =>
        match buildListF f r1 rest with
        | none => none
        | some (r2, ds2) => some (r2, ds ++ ds2)
    | .mk (.str t) i ats cs =>
      if t = TEXT_ELEMENT then
        match buildListF f r rest with
        | none => none
        | some (r1, ds) =>
          some (r1, .text (jsToString (lookupAttr ats "nodeValue")) :: ds)
      else
        match buildListF f r cs with
        | none => none
        | some (r1, cds) =>
          match buildListF f r1 rest with
          | none => none
          | some (r2, ds2) =>
            some (r2,
              .elem t i (applyOps (processAttrs ats)).1 (applyOps (processAttrs ats)).2 cds
                :: ds2)

/-- Is this description a text element? -/
def isTextNode (v : VDOMNode) : Bool := v.type = NType.str TEXT_ELEMENT

/-- Top-level initialRender call (source lines 58-122, 421): an absent
container is a silent no-op; otherwise the tree is materialized, its
nodes are appended to the container, and the previous-tree reference
receives the mounted description - unless the description itself is a
text element, whose early return (source line 68) skips the oldVDOM
write. -/
def initialRenderTop (f : Nat) (s : Sys) (v : VDOMNode) (containerPresent : Bool) :
    Except BErr Sys :=
  if containerPresent = false then .ok s
  else
    match buildListF f s.rst [v] with
    | none => .error .fuelOut
    | some (r1, ds) =>
      .ok { s with
              rst := r1,
              dom := s.dom ++ ds,
              oldV := if isTextNode v then s.oldV else some v }

/-- The identity a change's document.querySelector looks up (source
lines 334-410): REPLACE_TEXT and REPLACE_NODE_WHERE_ID_CHANGED carry
the old node id, REPLACE_NODE and DELETE_OLD use the subtree's own id,
NEW_NODE_ADDED uses the parent id. -/
def targetId : Change → String
  | .replaceText _ oldId => oldId
  | .replaceNode v => v.id
  | .replaceIdChanged _ oldId => oldId
  | .newNodeAdded _ pid => pid
  | .deleteOld v => v.id

/-- Application of one change record to the live tree (source lines
334-410).  The helper createRealDOMElementWithVDOM called by the three
materializing branches is absent from the provided sources; it is
modelled from the spec: materialize the new subtree fully, with the
same algorithm as the initial mount, into a detached forest, then run
the mutation callback, whose optional chaining makes a missing lookup
target a no-op.  The modelled materializer does not write the
previous-tree reference; the render driver overwrites it right after
patching, so the final module state is unaffected. -/
def applyChangeF (f : Nat) (s : Sys) (c : Change) : Except BErr Sys :=
  match c with
  | .replaceText v oldId =>
    let newText := DomNode.text (jsToString (lookupAttr v.attrs "nodeValue"))
    match replaceTextF s.dom oldId newText with
    | none => .ok s
    | some (.error e) => .error e
    | some (.ok dom') => .ok { s with dom := dom' }
  | .replaceNode v =>
    match buildListF f s.rst [v] with
    | none => .error .fuelOut
    | some (r1, ds) =>
      .ok { s with rst := r1, dom := (replaceByIdF s.dom v.id ds).getD s.dom }
  | .replaceIdChanged v oldId =>
    match buildListF f s.rst [v] with
    | none => .error .fuelOut
    | some (r1, ds) =>
      .ok { s with rst := r1, dom := (replaceByIdF s.dom oldId ds).getD s.dom }
  | .newNodeAdded v pid =>
    match buildListF f s.rst [v] with
    | none => .error .fuelOut
    | some (r1, ds) =>
      .ok { s with rst := r1, dom := (appendByIdF s.dom pid ds).getD s.dom }
  | .deleteOld v =>
    .ok { s with dom := (replaceByIdF s.dom v.id []).getD s.dom }

/-- Application of a whole change list in order (source line 335); an
exception aborts the traversal. -/
def applyChangesF : Nat → Sys → List Change → Except BErr Sys
  | _, s, [] => .ok s
  | f, s, c :: cs =>
    match applyChangeF f s c with
    | .error e => .error e
    | .ok s1 => applyChangesF f s1 cs

/-- The render driver rerender (source lines 412-419): skip when no
previous tree exists; otherwise build the new root description - a
bare transpiled App element with a fresh uuid; App is NOT invoked here
- diff it against the previous tree, apply the changes, and overwrite
the previous-tree reference. -/
def rerenderF (f : Nat) (s : Sys) : Except BErr Sys :=
  match s.oldV with
  | none => .ok s
  | some old =>
    let p := freshUuidR s.rst
    let newV := VDOMNode.mk (.fn APP_FN) p.1 [] []
    match applyChangesF f { s with rst := p.2 } (diff old newV) with
    | .error e => .error e
    | .ok s2 => .ok { s2 with oldV := some newV }

/-- The setter setState captured by a closure (source lines 144-155),
running against the module state: compute the new slot value (callback
on the current value, or the literal), write the slot, then rerender. -/
def setStateSys (f : Nat) (s : Sys) (fk : String) (arg : JsVal ⊕ (JsVal → JsVal)) :
    Except BErr Sys :=
  let newVal :=
    match arg with
    | .inr cb => cb (getState s.rst.states fk)
    | .inl v => v
  rerenderF f { s with rst := { s.rst with states := setStateMap s.rst.states fk newVal } }

/-- Reading the first click listener of a listener list. -/
def lookupListener : List (String × JsVal) → Option Nat
  | [] => none
  | (n, .fnRef r) :: rest => if n = "click" then some r else lookupListener rest
  | _ :: rest => lookupListener rest

mutual

/-- The first click-listener token registered in this node, document
order. -/
def findClickN : DomNode → Option Nat
  | .text _ => none
  | .elem _ _ _ ls cs =>
    match lookupListener ls with
    | some r => some r
    | none => findClickF cs

/-- The first click-listener token registered in this forest. -/
def findClickF : List DomNode → Option Nat
  | [] => none
  | d :: ds =>
    match findClickN d with
    | some r => some r
    | none => findClickF ds

end

/-- Closure-table lookup. -/
def lookupClosure : List (Nat × Closure) → Nat → Option Closure
  | [], _ => none
  | (r', cl) :: rest, r => if r' = r then some cl else lookupClosure rest r

/-- The JavaScript addition count + 1 inside handleClick; the captured
count is always a number in the modeled program. -/
def jsAddOne : JsVal → JsVal
  | .num n => .num (n + 1)
  | v => v

/-- Invoking the click handler registered on the live button: find the
registered listener token, read the captured closure, and run
setCount(count + 1) - a literal setter call with the captured count
plus one (source line 169). -/
def clickStep (f : Nat) (s : Sys) : Except BErr Sys :=
  match findClickF s.dom with
  | none => .ok s
  | some r =>
    match lookupClosure s.rst.closures r with
    | none => .ok s
    | some cl => setStateSys f s cl.fk (Sum.inl (jsAddOne cl.count))

/-- C7: applying a change whose identity lookup finds no live display
node leaves the display tree unchanged and raises no error (the only
non-ok outcome is the model's explicit recursion bound running out,
never the TypeError a real patch step can raise), and mounting with an
absent container is a silent no-op. -/
theorem c7_missing_target_noop (f : Nat) (s : Sys) (c : Change) (v : VDOMNode)
    (h : lookupIdF s.dom (targetId c) = false) :
    (applyChangeF f s c).map Sys.dom = (applyChangeF f s c).map (fun _ => s.dom) ∧
    applyChangeF f s c ≠ Except.error BErr.typeError ∧
    initialRenderTop f s v false = .ok s := by
  refine ⟨?_, ?_, rfl⟩ <;>
  · cases c with
    | replaceText vd oldId =>
      have hn := lookupIdF_false_replaceTextF s.dom oldId
        (DomNode.text (jsToString (lookupAttr vd.attrs "nodeValue")))
        (by simpa [targetId] using h)
      simp [applyChangeF, hn, Except.map]
    | replaceNode vd =>
      have hr : ∀ ds, replaceByIdF s.dom vd.id ds = none := fun ds =>
        lookupIdF_false_replaceByIdF s.dom vd.id ds (by simpa [targetId] using h)
      cases hb : buildListF f s.rst [vd] with
      | none => simp [applyChangeF, hb, Except.map]
      | some p => simp [applyChangeF, hb, hr p.2, Except.map]
    | replaceIdChanged vd oldId =>
      have hr : ∀ ds, replaceByIdF s.dom oldId ds = none := fun ds =>
        lookupIdF_false_replaceByIdF s.dom oldId ds (by simpa [targetId] using h)
      cases hb : buildListF f s.rst [vd] with
      | none => simp [applyChangeF, hb, Except.map]
      | some p => simp [applyChangeF, hb, hr p.2, Except.map]
    | newNodeAdded vd pid =>
      have hr : ∀ ds, appendByIdF s.dom pid ds = none := fun ds =>
        lookupIdF_false_appendByIdF s.dom pid ds (by simpa [targetId] using h)
      cases hb : buildListF f s.rst [vd] with
      | none => simp [applyChangeF, hb, Except.map]
      | some p => simp [applyChangeF, hb, hr p.2, Except.map]
    | deleteOld vd =>
      have hr := lookupIdF_false_replaceByIdF s.dom vd.id []
        (by simpa [targetId] using h)
      simp [applyChangeF, hr, Except.map]

/-- Live forest used by the C7 witness. -/
def c7Dom : List DomNode := [.elem "div" "d0" [] [] [.text "hello"]]

/-- Module state used by the C7 witness. -/
def c7Sys : Sys := ⟨⟨0, 0, [], []⟩, none, c7Dom⟩

/-- A REPLACE_TEXT change whose identity is absent from c7Dom. -/
def c7Change : Change := .replaceText (textNode "tX" (.str "new")) "missing"

/-- C7 witness: the no-op theorem applied to a concrete forest and a
REPLACE_TEXT change aimed at an identity the forest does not carry. -/
theorem c7_witness :
    lookupIdF c7Sys.dom (targetId c7Change) = false ∧
    ((applyChangeF 3 c7Sys c7Change).map Sys.dom =
        (applyChangeF 3 c7Sys c7Change).map (fun _ => c7Sys.dom) ∧
      applyChangeF 3 c7Sys c7Change ≠ Except.error BErr.typeError ∧
      initialRenderTop 3 c7Sys (textNode "tX" (.str "x")) false = .ok c7Sys) :=
  ⟨by decide, c7_missing_target_noop 3 c7Sys c7Change (textNode "tX" (.str "x")) (by decide)⟩

/-- The module state right after the top-level statements before line
421 ran: the uuid u0 was drawn for START_ID (source line 124) and the
states record holds null there (source lines 126-128); nothing is
mounted yet. -/
def sysInit : Sys := ⟨⟨1, 0, [(START_ID, .nullV)], []⟩, none, []⟩

/-- Drawing the uuid of the root App element of source line 421. -/
def c1Start : String × RSt := freshUuidR sysInit.rst

/-- The transpiled App element of source line 421: createElement(App,
null) - a function-typed description with no attributes and no
children; App is not invoked by the constructor. -/
def c1Root : VDOMNode := .mk (.fn APP_FN) c1Start.1 [] []

/-- The initial mount of source line 421, with the app container
present. -/
def c1Mount : Except BErr Sys :=
  initialRenderTop 10 { sysInit with rst := c1Start.2 } c1Root true

/-- The full counter scenario: mount, then invoke the registered
button handler three times. -/
def c1Scenario : Except BErr Sys := do
  let s1 ← c1Mount
  let s2 ← clickStep 10 s1
  let s3 ← clickStep 10 s2
  clickStep 10 s3

/-- The display forest the initial mount produces: the div stamped u7
containing the h1 stamped u2 with the two text nodes, and the button
stamped u5 carrying the click listener for closure token 0. -/
def c1MountedDom : List DomNode :=
  [.elem "div" "u7" [] []
     [.elem "h1" "u2" [] [] [.text "Count: ", .text "0"],
      .elem "button" "u5" [] [("click", .fnRef 0)] [.text "Click Me"]]]

/-- The count text of the mounted shape: the second text child of the
h1 inside the single root element. -/
def countText : List DomNode → Option String
  | [DomNode.elem _ _ _ _ [DomNode.elem _ _ _ _ [_, DomNode.text cnt], _]] => some cnt
  | _ => none

/-- The module state after the initial mount: uuids u0 (START_ID),
u1 (root App element), u2-u7 (App's first render) are drawn, the
START_ID slot holds 0, closure token 0 captured (START_ID, 0), and the
previous-tree reference holds the unexpanded root App description. -/
def c1S1 : Sys :=
  ⟨⟨8, 1, [("u0", JsVal.num 0)], [(0, ⟨"u0", JsVal.num 0⟩)]⟩,
   some (.mk (.fn 0) "u1" [] []), c1MountedDom⟩

/-- The module state after the first click: the START_ID slot was set
to 1, the rerender diffed the unexpanded roots u1 and u8, and the
patch materialized a detached second render (slot u9, closure 1, ids
u10-u15) that was discarded because no element is stamped u1; the
display forest is untouched. -/
def c1S2 : Sys :=
  ⟨⟨16, 2, [("u0", JsVal.num 1), ("u9", JsVal.num 0)],
    [(0, ⟨"u0", JsVal.num 0⟩), (1, ⟨"u9", JsVal.num 0⟩)]⟩,
   some (.mk (.fn 0) "u8" [] []), c1MountedDom⟩

/-- The module state after the second click (same pattern: the handler
still captures count 0, so the slot is again set to 1). -/
def c1S3 : Sys :=
  ⟨⟨24, 3, [("u0", JsVal.num 1), ("u9", JsVal.num 0), ("u17", JsVal.num 0)],
    [(0, ⟨"u0", JsVal.num 0⟩), (1, ⟨"u9", JsVal.num 0⟩), (2, ⟨"u17", JsVal.num 0⟩)]⟩,
   some (.mk (.fn 0) "u16" [] []), c1MountedDom⟩

/-- The module state after the third click. -/
def c1S4 : Sys :=
  ⟨⟨32, 4,
    [("u0", JsVal.num 1), ("u9", JsVal.num 0), ("u17", JsVal.num 0), ("u25", JsVal.num 0)],
    [(0, ⟨"u0", JsVal.num 0⟩), (1, ⟨"u9", JsVal.num 0⟩), (2, ⟨"u17", JsVal.num 0⟩),
     (3, ⟨"u25", JsVal.num 0⟩)]⟩,
   some (.mk (.fn 0) "u24" [] []), c1MountedDom⟩

theorem c1_mount_eq : c1Mount = Except.ok c1S1 := rfl

theorem c1_click1_eq : clickStep 10 c1S1 = Except.ok c1S2 := rfl

theorem c1_click2_eq : clickStep 10 c1S2 = Except.ok c1S3 := rfl

theorem c1_click3_eq : clickStep 10 c1S3 = Except.ok c1S4 := rfl

/-- Unfolding one bind step of the scenario. -/
theorem exceptBind_ok {α β ε : Type} (a : α) (f : α → Except ε β) :
    (Except.ok a : Except ε α) >>= f = f a := rfl

/-- C1 evaluation at the failing input: after mounting the counter and
invoking the registered button handler three times, the live display
forest is completely unchanged from the mount - the count text node
still reads 0, not 3, and no text node was ever replaced - while the
START_ID slot holds 1, not 3 (each click re-runs the same captured
handler with count 0).  Every rerender diffs two unexpanded App
descriptions whose fresh uuids force a single
REPLACE_NODE_WHERE_ID_CHANGED aimed at an identity never stamped into
the display tree, so every patch is a no-op. -/
theorem c1_counter_scenario_broken :
    c1Scenario = Except.ok c1S4 ∧
    c1S1.dom = c1MountedDom ∧ c1S4.dom = c1MountedDom ∧
    countText c1MountedDom = some "0" ∧
    getState c1S4.rst.states START_ID = JsVal.num 1 := by
  refine ⟨?_, rfl, rfl, rfl, rfl⟩
  unfold c1Scenario
  rw [c1_mount_eq]
  simp only [exceptBind_ok]
  rw [c1_click1_eq]
  simp only [exceptBind_ok]
  rw [c1_click2_eq]
  simp only [exceptBind_ok]
  exact c1_click3_eq
